import Mathlib

/-!
# Shallow embedding of the MAX31855 thermocouple-driver decoder and transport

The source (`MAX31855.cpp` / `MAX31855.h`) stores a raw SPI frame in an
`int32_t`.  We represent a frame by its 32-bit pattern, a `Nat < 2^32`; the
signed int32 view needed by the arithmetic right shift in `getTemperature`
is recovered by `toInt32`.  The C `float` results are modelled by `ℚ`: every
value produced by the code (a count of magnitude < 2^14 times 0.25 or a
count < 2^12 times 0.0625, or the integer sentinel 2000) is exactly
representable in binary floating point, and the single multiply is exact,
so the rational model is bit-faithful to the `float` code.

`readRawData` performs real I/O; its data-dependent part is a pure fold
over the 32 bits sampled on the serial line, which we embed with the line
modelled as the sequence of sampled bits.  Every decode/classify member
takes a `fresh` parameter: the frame a `readRawData()` call would return
(the transport is deterministic within one call), used exactly where the
source substitutes `rawValue = readRawData()`.
-/

/-- `#define MAX31855_ID 31855` -/
def MAX31855_ID : ℕ := 31855

/-- `#define MAX31855_FORCE_READ_DATA 7` -/
def MAX31855_FORCE_READ_DATA : ℕ := 7

/-- `#define MAX31855_ERROR 2000` (returned as a float) -/
def MAX31855_ERROR : ℚ := 2000

/-- `#define MAX31855_THERMOCOUPLE_OK 0` -/
def MAX31855_THERMOCOUPLE_OK : ℕ := 0

/-- `#define MAX31855_THERMOCOUPLE_SHORT_TO_VCC 1` -/
def MAX31855_THERMOCOUPLE_SHORT_TO_VCC : ℕ := 1

/-- `#define MAX31855_THERMOCOUPLE_SHORT_TO_GND 2` -/
def MAX31855_THERMOCOUPLE_SHORT_TO_GND : ℕ := 2

/-- `#define MAX31855_THERMOCOUPLE_NOT_CONNECTED 3` -/
def MAX31855_THERMOCOUPLE_NOT_CONNECTED : ℕ := 3

/-- `#define MAX31855_THERMOCOUPLE_UNKNOWN 4` -/
def MAX31855_THERMOCOUPLE_UNKNOWN : ℕ := 4

/-- `#define MAX31855_THERMOCOUPLE_RESOLUTION 0.25` (exact in binary float) -/
def MAX31855_THERMOCOUPLE_RESOLUTION : ℚ := 1 / 4

/-- `#define MAX31855_COLD_JUNCTION_RESOLUTION 0.0625` (exact in binary float) -/
def MAX31855_COLD_JUNCTION_RESOLUTION : ℚ := 1 / 16

/-- Arduino `bitRead(value, bit)`, i.e. `(value >> bit) & 1`, on the 32-bit
pattern of the frame.  For an `int32_t` holding pattern `x < 2^32` and
`bit ≤ 31`, the C expression yields exactly bit `bit` of the pattern. -/
def bitRead (x n : ℕ) : ℕ := (x >>> n) % 2

/-- The value of the `int32_t` whose 32-bit two's-complement pattern is `p`. -/
def toInt32 (p : ℕ) : ℤ := if p < 2 ^ 31 then (p : ℤ) else (p : ℤ) - 2 ^ 32

/-- `MAX31855::detectThermocouple(int32_t rawValue)`:
sentinel dispatch, then classify bits 16, 2, 1, 0 in source order.
`fresh` is the frame `readRawData()` would return. -/
def detectThermocouple (fresh rawValue : ℕ) : ℕ :=
  let r := if rawValue = MAX31855_FORCE_READ_DATA then fresh else rawValue
  if bitRead r 16 = 1 then
    if bitRead r 2 = 1 then MAX31855_THERMOCOUPLE_SHORT_TO_VCC
    else if bitRead r 1 = 1 then MAX31855_THERMOCOUPLE_SHORT_TO_GND
    else if bitRead r 0 = 1 then MAX31855_THERMOCOUPLE_NOT_CONNECTED
    else MAX31855_THERMOCOUPLE_UNKNOWN
  else MAX31855_THERMOCOUPLE_OK

/-- `MAX31855::getChipID(int32_t rawValue)`:
sentinel dispatch, then `bitRead(rawValue,17)==0 && bitRead(rawValue,3)==0`. -/
def getChipID (fresh rawValue : ℕ) : ℕ :=
  let r := if rawValue = MAX31855_FORCE_READ_DATA then fresh else rawValue
  if bitRead r 17 = 0 ∧ bitRead r 3 = 0 then MAX31855_ID else 0

/-- `MAX31855::getTemperature(int32_t rawValue)`:
sentinel dispatch; error sentinel on fault or identity failure; otherwise
`rawValue >> 18` (arithmetic shift of the signed int32, i.e. floor division
by `2^18`) times the 0.25 resolution.  The inner calls are the member
functions, which re-dispatch on the sentinel just as the source does. -/
def getTemperature (fresh rawValue : ℕ) : ℚ :=
  let r := if rawValue = MAX31855_FORCE_READ_DATA then fresh else rawValue
  if detectThermocouple fresh r ≠ MAX31855_THERMOCOUPLE_OK ∨ getChipID fresh r ≠ MAX31855_ID
  then MAX31855_ERROR
  else (((toInt32 r).fdiv (2 ^ 18) : ℤ) : ℚ) * MAX31855_THERMOCOUPLE_RESOLUTION

/-- `MAX31855::getColdJunctionTemperature(int32_t rawValue)`:
sentinel dispatch; error sentinel on identity failure only; otherwise
`rawValue & 0x0000FFFF` (the low 16 bits of the int32, a non-negative
value, i.e. `emod 2^16`) then `>> 4` (arithmetic shift of a non-negative
value, i.e. floor division by 16) times the 0.0625 resolution. -/
def getColdJunctionTemperature (fresh rawValue : ℕ) : ℚ :=
  let r := if rawValue = MAX31855_FORCE_READ_DATA then fresh else rawValue
  if getChipID fresh r ≠ MAX31855_ID
  then MAX31855_ERROR
  else ((((toInt32 r).emod (2 ^ 16)).fdiv (2 ^ 4) : ℤ) : ℚ) * MAX31855_COLD_JUNCTION_RESOLUTION

/-- The pure classification body of `detectThermocouple` (the path taken on
an already-acquired frame); the spec's `classifyFault`. -/
def classifyFault (rawValue : ℕ) : ℕ :=
  if bitRead rawValue 16 = 1 then
    if bitRead rawValue 2 = 1 then MAX31855_THERMOCOUPLE_SHORT_TO_VCC
    else if bitRead rawValue 1 = 1 then MAX31855_THERMOCOUPLE_SHORT_TO_GND
    else if bitRead rawValue 0 = 1 then MAX31855_THERMOCOUPLE_NOT_CONNECTED
    else MAX31855_THERMOCOUPLE_UNKNOWN
  else MAX31855_THERMOCOUPLE_OK

/-- The pure identity body of `getChipID`; the spec's `decodeDeviceIdentity`. -/
def decodeDeviceIdentity (rawValue : ℕ) : ℕ :=
  if bitRead rawValue 17 = 0 ∧ bitRead rawValue 3 = 0 then MAX31855_ID else 0

/-- The pure decode body of `getTemperature` on an already-acquired frame;
the spec's `decodeThermocoupleTemperature`. -/
def decodeThermocoupleTemperature (rawValue : ℕ) : ℚ :=
  if classifyFault rawValue ≠ MAX31855_THERMOCOUPLE_OK ∨ decodeDeviceIdentity rawValue ≠ MAX31855_ID
  then MAX31855_ERROR
  else (((toInt32 rawValue).fdiv (2 ^ 18) : ℤ) : ℚ) * MAX31855_THERMOCOUPLE_RESOLUTION

/-- The pure decode body of `getColdJunctionTemperature` on an
already-acquired frame; the spec's `decodeColdJunctionTemperature`. -/
def decodeColdJunctionTemperature (rawValue : ℕ) : ℚ :=
  if decodeDeviceIdentity rawValue ≠ MAX31855_ID
  then MAX31855_ERROR
  else ((((toInt32 rawValue).emod (2 ^ 16)).fdiv (2 ^ 4) : ℤ) : ℚ) * MAX31855_COLD_JUNCTION_RESOLUTION

/-- Two's-complement reading of a 14-bit field (the spec's decoding of
bits 31..18: sign at the top bit of the field). -/
def signed14 (u : ℕ) : ℤ := if u < 2 ^ 13 then (u : ℤ) else (u : ℤ) - 2 ^ 14

/-- Two's-complement reading of a 12-bit field (the spec's decoding of
bits 15..4: sign at the top bit of the field). -/
def signed12 (u : ℕ) : ℤ := if u < 2 ^ 11 then (u : ℤ) else (u : ℤ) - 2 ^ 12

/-- Modelled from the spec: `decodeColdJunctionTemperature`'s stated decode
on an identity-valid frame — mask to the lower 16 bits, right-shift 4,
interpret as a two's-complement signed 12-bit integer, multiply by 0.0625.
(Comparison target for the source's `getColdJunctionTemperature`.) -/
def specColdJunctionDecode (rawValue : ℕ) : ℚ :=
  ((signed12 ((rawValue % 2 ^ 16) >>> 4) : ℤ) : ℚ) * MAX31855_COLD_JUNCTION_RESOLUTION

/-- Encoding of a signed 14-bit thermocouple count into bits 31..18 of a
frame whose remaining bits are all zero. -/
def encodeThermocouple (c : ℤ) : ℕ := (c % 2 ^ 14).toNat <<< 18

/-- The sampled value of the serial data line: `line i` is the `i`-th bit
the device presents, MSB first; `digitalRead` yields 1 for a high bit. -/
def bitAt (line : ℕ → Bool) (i : ℕ) : ℕ := if line i then 1 else 0

/-- Modelled from the spec: the external `SPI.transfer16` of transaction
`k` — the hardware peripheral, configured MSB-first, samples the next 16
bits of the line (bits `16*k .. 16*k+15`) into a 16-bit word, most
significant bit first. -/
def spiTransfer16 (line : ℕ → Bool) (k : ℕ) : ℕ :=
  (List.range 16).foldl (fun acc j => 2 * acc + bitAt line (16 * k + j)) 0

/-- `MAX31855::readRawData()`, data-dependent part: the `switch` on
`_useHardwareSPI`.  Hardware path: two 16-bit transfers, each shifted into
the accumulator (`rawData = (rawData << 16) | SPI.transfer16(0)`); software
path: 32 iterations of `rawData = (rawData << 1) | digitalRead(_so)`.  The
`int32_t` accumulator keeps 32 bits, hence the `% 2^32`. -/
def readRawData (useHardwareSPI : Bool) (line : ℕ → Bool) : ℕ :=
  match useHardwareSPI with
  | true =>
      (List.range 2).foldl
        (fun rawData i => ((rawData <<< 16) ||| spiTransfer16 line i) % 2 ^ 32) 0
  | false =>
      (List.range 32).foldl
        (fun rawData i => ((rawData <<< 1) ||| bitAt line i) % 2 ^ 32) 0

/-- MSB-first value of the `n` bits of the line starting at offset `o`. -/
def acquire (line : ℕ → Bool) (o : ℕ) : ℕ → ℕ
  | 0 => 0
  | n + 1 => 2 * acquire line o n + bitAt line (o + n)

/-- Concrete sampled line used to instantiate the transport theorems. -/
def lineW : ℕ → Bool := fun i => i % 3 == 0

theorem bitAt_le (line : ℕ → Bool) (i : ℕ) : bitAt line i ≤ 1 := by
  unfold bitAt; split <;> omega

theorem acquire_lt (line : ℕ → Bool) (o : ℕ) : ∀ n, acquire line o n < 2 ^ n := by
  intro n
  induction n with
  | zero => simp [acquire]
  | succ n ih =>
      have hb := bitAt_le line (o + n)
      rw [pow_succ]
      simp only [acquire]
      omega

theorem shiftLeft_lor_eq_add (a b k : ℕ) (hb : b < 2 ^ k) :
    (a <<< k) ||| b = a * 2 ^ k + b := by
  apply Nat.eq_of_testBit_eq
  intro i
  rcases Nat.lt_or_ge i k with h | h
  · have hm : (a * 2 ^ k + b) % 2 ^ k = b := by
      rw [Nat.mul_comm, Nat.mul_add_mod]
      exact Nat.mod_eq_of_lt hb
    have h1 : (a * 2 ^ k + b).testBit i = b.testBit i := by
      have h2 := Nat.testBit_mod_two_pow (a * 2 ^ k + b) k i
      rw [hm] at h2
      simp [h] at h2
      exact h2.symm
    rw [h1, Nat.testBit_or, Nat.testBit_shiftLeft]
    simp [Nat.not_le.mpr h]
  · obtain ⟨j, rfl⟩ : ∃ j, i = k + j := ⟨i - k, by omega⟩
    have hd : (a * 2 ^ k + b) >>> k = a := by
      rw [Nat.shiftRight_eq_div_pow, Nat.mul_comm, Nat.mul_add_div (Nat.two_pow_pos k),
        Nat.div_eq_of_lt hb, Nat.add_zero]
    have h1 : (a * 2 ^ k + b).testBit (k + j) = a.testBit j := by
      conv_rhs => rw [← hd]
      rw [Nat.testBit_shiftRight]
    have hb2 : b.testBit (k + j) = false :=
      Nat.testBit_lt_two_pow (lt_of_lt_of_le hb (Nat.pow_le_pow_right (by norm_num) (by omega)))
    rw [h1, Nat.testBit_or, Nat.testBit_shiftLeft, hb2]
    simp [Nat.le_add_right]

theorem range_fold_sample (line : ℕ → Bool) (o : ℕ) :
    ∀ n a, (List.range n).foldl (fun acc j => 2 * acc + bitAt line (o + j)) a
           = a * 2 ^ n + acquire line o n := by
  intro n
  induction n with
  | zero => intro a; simp [acquire]
  | succ n ih =>
      intro a
      rw [List.range_succ, List.foldl_append]
      simp only [List.foldl_cons, List.foldl_nil]
      rw [ih]
      simp only [acquire]
      ring

theorem acquire_append (line : ℕ → Bool) (o m : ℕ) :
    ∀ n, acquire line o (m + n) = acquire line o m * 2 ^ n + acquire line (o + m) n := by
  intro n
  induction n with
  | zero => simp [acquire]
  | succ n ih =>
      have h1 : m + (n + 1) = (m + n) + 1 := by omega
      rw [h1]
      simp only [acquire]
      rw [ih]
      have h2 : o + (m + n) = o + m + n := by omega
      rw [h2]
      ring

theorem sw_fold (line : ℕ → Bool) :
    ∀ n, n ≤ 32 → ∀ a, a < 2 ^ (32 - n) →
      (List.range n).foldl (fun acc i => ((acc <<< 1) ||| bitAt line i) % 2 ^ 32) a
        = a * 2 ^ n + acquire line 0 n := by
  intro n
  induction n with
  | zero => intro _ a _; simp [acquire]
  | succ n ih =>
      intro hn a ha
      rw [List.range_succ, List.foldl_append]
      simp only [List.foldl_cons, List.foldl_nil]
      have ha2 : a < 2 ^ (32 - n) :=
        lt_of_lt_of_le ha (Nat.pow_le_pow_right (by norm_num) (by omega))
      rw [ih (by omega) a ha2]
      have hb := bitAt_le line n
      have hacq := acquire_lt line 0 n
      have hA : a * 2 ^ n + acquire line 0 n < 2 ^ 31 := by
        have h1 : a * 2 ^ n + acquire line 0 n < (a + 1) * 2 ^ n := by
          have h0 : (a + 1) * 2 ^ n = a * 2 ^ n + 2 ^ n := by ring
          rw [h0]
          exact Nat.add_lt_add_left hacq _
        have ha3 : a < 2 ^ (31 - n) := by
          have hexp : 32 - (n + 1) = 31 - n := by omega
          rw [hexp] at ha
          exact ha
        have h2 : (a + 1) * 2 ^ n ≤ 2 ^ (31 - n) * 2 ^ n :=
          Nat.mul_le_mul_right _ (by omega)
        have h3 : 2 ^ (31 - n) * 2 ^ n = 2 ^ 31 := by
          rw [← pow_add]
          congr 1
          omega
        exact lt_of_lt_of_le h1 (le_trans h2 (le_of_eq h3))
      rw [shiftLeft_lor_eq_add _ _ 1 (by omega)]
      rw [Nat.mod_eq_of_lt (by omega)]
      simp only [acquire, Nat.zero_add]
      ring

theorem acquire_testBit (line : ℕ → Bool) (o : ℕ) :
    ∀ n i, i < n → (acquire line o n).testBit (n - 1 - i) = line (o + i) := by
  intro n
  induction n with
  | zero => intro i h; omega
  | succ n ih =>
      intro i hi
      rcases Nat.lt_or_ge i n with h | h
      · have he : n + 1 - 1 - i = (n - 1 - i) + 1 := by omega
        rw [he]
        simp only [acquire]
        rw [Nat.testBit_succ]
        have hb := bitAt_le line (o + n)
        have hdiv : (2 * acquire line o n + bitAt line (o + n)) / 2 = acquire line o n := by
          omega
        rw [hdiv]
        exact ih i h
      · have hin : i = n := by omega
        subst hin
        have he : i + 1 - 1 - i = 0 := by omega
        rw [he]
        simp only [acquire]
        rw [Nat.testBit_zero]
        cases hl : line (o + i) <;> simp [bitAt, hl] <;> omega

theorem readRawData_sw_eq (line : ℕ → Bool) :
    readRawData false line = acquire line 0 32 := by
  simp only [readRawData]
  rw [sw_fold line 32 (by norm_num) 0 (by norm_num)]
  simp

theorem readRawData_hw_eq (line : ℕ → Bool) :
    readRawData true line = acquire line 0 32 := by
  have ht0 : spiTransfer16 line 0 = acquire line 0 16 := by
    unfold spiTransfer16
    rw [range_fold_sample line (16 * 0) 16 0]
    norm_num
  have ht1 : spiTransfer16 line 1 = acquire line 16 16 := by
    unfold spiTransfer16
    rw [range_fold_sample line (16 * 1) 16 0]
    norm_num
  simp only [readRawData]
  have hr2 : List.range 2 = [0, 1] := rfl
  rw [hr2]
  simp only [List.foldl_cons, List.foldl_nil]
  rw [ht0, ht1]
  have ha0 : acquire line 0 16 < 2 ^ 16 := acquire_lt line 0 16
  have ha1 : acquire line 16 16 < 2 ^ 16 := acquire_lt line 16 16
  rw [shiftLeft_lor_eq_add 0 _ 16 ha0]
  rw [Nat.mod_eq_of_lt (show 0 * 2 ^ 16 + acquire line 0 16 < 2 ^ 32 by omega)]
  simp only [Nat.zero_mul, Nat.zero_add]
  rw [shiftLeft_lor_eq_add _ _ 16 ha1]
  have hm : acquire line 0 16 * 2 ^ 16 ≤ (2 ^ 16 - 1) * 2 ^ 16 :=
    Nat.mul_le_mul_right _ (by omega)
  rw [Nat.mod_eq_of_lt
    (show acquire line 0 16 * 2 ^ 16 + acquire line 16 16 < 2 ^ 32 by omega)]
  have hap := acquire_append line 0 16 16
  norm_num at hap
  exact hap.symm

/-- C8: the two acquisition strategies of `readRawData` agree: for every
sequence of 32 bits presented MSB-first on the serial data line, the
hardware-SPI path (two 16-bit word transfers concatenated high-word-first)
and the bit-banged path (32 iterations of shift-left-then-or) produce the
same 32-bit frame, whose bit at position `31 - i` is the `i`-th sampled
bit. -/
theorem readRawData_strategies (line : ℕ → Bool) :
    readRawData true line = readRawData false line ∧
    ∀ i, i < 32 → (readRawData false line).testBit (31 - i) = line i := by
  constructor
  · rw [readRawData_hw_eq, readRawData_sw_eq]
  · intro i hi
    rw [readRawData_sw_eq]
    have h := acquire_testBit line 0 32 i hi
    norm_num at h
    exact h

/-- C8 witness: the two strategies agree on the concrete line `lineW`,
and bit 31 - 5 = 26 of the frame is the 5th sampled bit. -/
theorem readRawData_strategies_witness :
    readRawData true lineW = readRawData false lineW ∧
    (readRawData false lineW).testBit 26 = lineW 5 :=
  ⟨(readRawData_strategies lineW).1, (readRawData_strategies lineW).2 5 (by norm_num)⟩

theorem bitRead_eq (x n : ℕ) : bitRead x n = if x.testBit n then 1 else 0 := by
  unfold bitRead
  rw [Nat.testBit_to_div_mod, Nat.shiftRight_eq_div_pow]
  rcases Nat.mod_two_eq_zero_or_one (x / 2 ^ n) with h | h <;> simp [h]

theorem detectThermocouple_cached (fresh raw : ℕ) (h : raw ≠ MAX31855_FORCE_READ_DATA) :
    detectThermocouple fresh raw = classifyFault raw := by
  simp [detectThermocouple, classifyFault, h]

theorem getChipID_cached (fresh raw : ℕ) (h : raw ≠ MAX31855_FORCE_READ_DATA) :
    getChipID fresh raw = decodeDeviceIdentity raw := by
  simp [getChipID, decodeDeviceIdentity, h]

theorem getTemperature_cached (fresh raw : ℕ) (h : raw ≠ MAX31855_FORCE_READ_DATA) :
    getTemperature fresh raw = decodeThermocoupleTemperature raw := by
  simp [getTemperature, decodeThermocoupleTemperature, h,
    detectThermocouple_cached fresh raw h, getChipID_cached fresh raw h]

theorem getColdJunctionTemperature_cached (fresh raw : ℕ)
    (h : raw ≠ MAX31855_FORCE_READ_DATA) :
    getColdJunctionTemperature fresh raw = decodeColdJunctionTemperature raw := by
  simp [getColdJunctionTemperature, decodeColdJunctionTemperature, h,
    getChipID_cached fresh raw h]

theorem detectThermocouple_force (fresh : ℕ) :
    detectThermocouple fresh MAX31855_FORCE_READ_DATA = classifyFault fresh := by
  simp [detectThermocouple, classifyFault]

theorem getChipID_force (fresh : ℕ) :
    getChipID fresh MAX31855_FORCE_READ_DATA = decodeDeviceIdentity fresh := by
  simp [getChipID, decodeDeviceIdentity]

theorem getTemperature_force (fresh : ℕ) :
    getTemperature fresh MAX31855_FORCE_READ_DATA = decodeThermocoupleTemperature fresh := by
  by_cases hf : fresh = MAX31855_FORCE_READ_DATA
  · subst hf
    simp [getTemperature, decodeThermocoupleTemperature, detectThermocouple_force,
      getChipID_force]
  · simp [getTemperature, decodeThermocoupleTemperature,
      detectThermocouple_cached _ _ hf, getChipID_cached _ _ hf]

theorem getColdJunctionTemperature_force (fresh : ℕ) :
    getColdJunctionTemperature fresh MAX31855_FORCE_READ_DATA
      = decodeColdJunctionTemperature fresh := by
  by_cases hf : fresh = MAX31855_FORCE_READ_DATA
  · subst hf
    simp [getColdJunctionTemperature, decodeColdJunctionTemperature, getChipID_force]
  · simp [getColdJunctionTemperature, decodeColdJunctionTemperature,
      getChipID_cached _ _ hf]

theorem decodeDeviceIdentity_eq (raw : ℕ) :
    decodeDeviceIdentity raw =
      if raw.testBit 17 = false ∧ raw.testBit 3 = false then MAX31855_ID else 0 := by
  unfold decodeDeviceIdentity
  rw [bitRead_eq, bitRead_eq]
  cases h17 : raw.testBit 17 <;> cases h3 : raw.testBit 3 <;> simp

theorem classifyFault_ok (raw : ℕ) (h16 : raw.testBit 16 = false) :
    classifyFault raw = MAX31855_THERMOCOUPLE_OK := by
  unfold classifyFault
  rw [bitRead_eq]
  simp [h16]

theorem tempCount_eq (p : ℕ) (hp : p < 2 ^ 32) :
    (toInt32 p).fdiv (2 ^ 18) = signed14 (p >>> 18) := by
  rw [Int.fdiv_eq_ediv _ (by norm_num)]
  unfold toInt32 signed14
  rw [Nat.shiftRight_eq_div_pow]
  split_ifs with h1 h2 h2 <;> omega

theorem cjCount_eq (p : ℕ) (hp : p < 2 ^ 32) :
    ((toInt32 p).emod (2 ^ 16)).fdiv (2 ^ 4) = (((p % 2 ^ 16) >>> 4 : ℕ) : ℤ) := by
  rw [Int.fdiv_eq_ediv _ (by norm_num)]
  have hm : (toInt32 p).emod (2 ^ 16) = toInt32 p % 2 ^ 16 := rfl
  rw [hm]
  unfold toInt32
  rw [Nat.shiftRight_eq_div_pow]
  split_ifs with h1 <;> omega

theorem decodeThermocouple_valid (raw : ℕ) (hp : raw < 2 ^ 32)
    (h17 : raw.testBit 17 = false) (h3 : raw.testBit 3 = false)
    (h16 : raw.testBit 16 = false) :
    decodeThermocoupleTemperature raw
      = ((signed14 (raw >>> 18) : ℤ) : ℚ) * MAX31855_THERMOCOUPLE_RESOLUTION := by
  unfold decodeThermocoupleTemperature
  rw [classifyFault_ok raw h16, decodeDeviceIdentity_eq]
  rw [if_pos (⟨h17, h3⟩ : raw.testBit 17 = false ∧ raw.testBit 3 = false)]
  rw [if_neg (by simp)]
  rw [tempCount_eq raw hp]

theorem decodeThermocouple_error (raw : ℕ)
    (h : classifyFault raw ≠ MAX31855_THERMOCOUPLE_OK ∨
         decodeDeviceIdentity raw ≠ MAX31855_ID) :
    decodeThermocoupleTemperature raw = MAX31855_ERROR := by
  unfold decodeThermocoupleTemperature
  rw [if_pos h]

theorem decodeColdJunction_error (raw : ℕ) (h : decodeDeviceIdentity raw ≠ MAX31855_ID) :
    decodeColdJunctionTemperature raw = MAX31855_ERROR := by
  unfold decodeColdJunctionTemperature
  rw [if_pos (by exact h)]

theorem decodeColdJunction_valid (raw : ℕ) (hp : raw < 2 ^ 32)
    (h17 : raw.testBit 17 = false) (h3 : raw.testBit 3 = false) :
    decodeColdJunctionTemperature raw
      = (((raw % 2 ^ 16) >>> 4 : ℕ) : ℚ) * MAX31855_COLD_JUNCTION_RESOLUTION := by
  unfold decodeColdJunctionTemperature
  rw [decodeDeviceIdentity_eq,
    if_pos (⟨h17, h3⟩ : raw.testBit 17 = false ∧ raw.testBit 3 = false)]
  rw [if_neg (by simp)]
  rw [cjCount_eq raw hp]
  norm_cast

theorem cjField_lt (raw : ℕ) : (raw % 2 ^ 16) >>> 4 < 4096 := by
  rw [Nat.shiftRight_eq_div_pow]
  have h := Nat.mod_lt raw (show 0 < 2 ^ 16 by norm_num)
  omega

theorem cjVal_nonneg (c : ℕ) : 0 ≤ (c : ℚ) * MAX31855_COLD_JUNCTION_RESOLUTION := by
  unfold MAX31855_COLD_JUNCTION_RESOLUTION
  positivity

theorem cjVal_le (c : ℕ) (hc : c < 4096) :
    (c : ℚ) * MAX31855_COLD_JUNCTION_RESOLUTION ≤ 4095 / 16 := by
  unfold MAX31855_COLD_JUNCTION_RESOLUTION
  have h2 : (c : ℚ) ≤ 4095 := by exact_mod_cast (show c ≤ 4095 by omega)
  linarith

theorem cjVal_ne_error (c : ℕ) (hc : c < 4096) :
    (c : ℚ) * MAX31855_COLD_JUNCTION_RESOLUTION ≠ MAX31855_ERROR := by
  intro h
  unfold MAX31855_COLD_JUNCTION_RESOLUTION MAX31855_ERROR at h
  have h2 : (c : ℚ) = 32000 := by linarith
  have h3 : c = 32000 := by exact_mod_cast h2
  omega

theorem tempVal_ne_error (s : ℤ) (h1 : -5488 ≤ s) (h2 : s ≤ 5488) :
    ((s : ℤ) : ℚ) * MAX31855_THERMOCOUPLE_RESOLUTION ≠ MAX31855_ERROR := by
  intro h
  unfold MAX31855_THERMOCOUPLE_RESOLUTION MAX31855_ERROR at h
  have h3 : ((s : ℤ) : ℚ) = 8000 := by linarith
  have h4 : s = 8000 := by exact_mod_cast h3
  omega

theorem encode_emod_lt (c : ℤ) : (c % 2 ^ 14).toNat < 2 ^ 14 := by
  omega

theorem encodeThermocouple_lt (c : ℤ) : encodeThermocouple c < 2 ^ 32 := by
  unfold encodeThermocouple
  rw [Nat.shiftLeft_eq]
  have h1 := encode_emod_lt c
  have h2 : (c % 2 ^ 14).toNat * 2 ^ 18 ≤ (2 ^ 14 - 1) * 2 ^ 18 :=
    Nat.mul_le_mul_right _ (by omega)
  omega

theorem encodeThermocouple_ne_force (c : ℤ) :
    encodeThermocouple c ≠ MAX31855_FORCE_READ_DATA := by
  unfold encodeThermocouple MAX31855_FORCE_READ_DATA
  rw [Nat.shiftLeft_eq]
  intro h
  omega

theorem encodeThermocouple_testBit_lt18 (c : ℤ) (k : ℕ) (hk : k < 18) :
    (encodeThermocouple c).testBit k = false := by
  unfold encodeThermocouple
  rw [Nat.testBit_shiftLeft]
  simp [Nat.not_le.mpr hk]

theorem encodeThermocouple_shiftRight (c : ℤ) :
    encodeThermocouple c >>> 18 = (c % 2 ^ 14).toNat := by
  unfold encodeThermocouple
  rw [Nat.shiftLeft_eq, Nat.shiftRight_eq_div_pow]
  omega

theorem signed14_encode (c : ℤ) (h1 : -(2 ^ 13) ≤ c) (h2 : c < 2 ^ 13) :
    signed14 ((c % 2 ^ 14).toNat) = c := by
  unfold signed14
  split_ifs with h <;> omega

/-- C3: for every 32-bit frame other than the fetch sentinel,
`detectThermocouple` returns OK (0) whenever bit 16 is 0, regardless of
bits 2/1/0; and when bit 16 is 1 it returns the first match in priority
order bit 2 → short-to-VCC (1), bit 1 → short-to-GND (2), bit 0 →
not-connected (3), and unknown (4) when none of bits 2/1/0 is set. -/
theorem detectThermocouple_classification (fresh raw : ℕ) (_h32 : raw < 2 ^ 32)
    (h7 : raw ≠ MAX31855_FORCE_READ_DATA) :
    (raw.testBit 16 = false → detectThermocouple fresh raw = MAX31855_THERMOCOUPLE_OK) ∧
    (raw.testBit 16 = true → raw.testBit 2 = true →
      detectThermocouple fresh raw = MAX31855_THERMOCOUPLE_SHORT_TO_VCC) ∧
    (raw.testBit 16 = true → raw.testBit 2 = false → raw.testBit 1 = true →
      detectThermocouple fresh raw = MAX31855_THERMOCOUPLE_SHORT_TO_GND) ∧
    (raw.testBit 16 = true → raw.testBit 2 = false → raw.testBit 1 = false →
      raw.testBit 0 = true →
      detectThermocouple fresh raw = MAX31855_THERMOCOUPLE_NOT_CONNECTED) ∧
    (raw.testBit 16 = true → raw.testBit 2 = false → raw.testBit 1 = false →
      raw.testBit 0 = false →
      detectThermocouple fresh raw = MAX31855_THERMOCOUPLE_UNKNOWN) := by
  rw [detectThermocouple_cached fresh raw h7]
  refine ⟨?_, ?_, ?_, ?_, ?_⟩ <;> intros <;> simp_all [classifyFault, bitRead_eq]

/-- C3 witness: frame 65540 has bit 16 and bit 2 set (and also names the
short-to-VCC priority over the cleared bits 1 and 0). -/
theorem detectThermocouple_classification_witness :
    (65540 : ℕ) < 2 ^ 32 ∧ (65540 : ℕ) ≠ MAX31855_FORCE_READ_DATA ∧
    detectThermocouple 0 65540 = MAX31855_THERMOCOUPLE_SHORT_TO_VCC :=
  ⟨by norm_num, by decide,
    (detectThermocouple_classification 0 65540 (by norm_num) (by decide)).2.1
      (by decide) (by decide)⟩

/-- C6: for every 32-bit frame other than the fetch sentinel, `getChipID`
returns the device constant 31855 iff bits 17 and 3 are both zero, returns
0 otherwise, and never returns a third value. -/
theorem getChipID_identity (fresh raw : ℕ) (_h32 : raw < 2 ^ 32)
    (h7 : raw ≠ MAX31855_FORCE_READ_DATA) :
    (getChipID fresh raw = MAX31855_ID ↔
      (raw.testBit 17 = false ∧ raw.testBit 3 = false)) ∧
    (¬(raw.testBit 17 = false ∧ raw.testBit 3 = false) → getChipID fresh raw = 0) ∧
    (getChipID fresh raw = MAX31855_ID ∨ getChipID fresh raw = 0) := by
  rw [getChipID_cached fresh raw h7, decodeDeviceIdentity_eq]
  by_cases h : raw.testBit 17 = false ∧ raw.testBit 3 = false <;> simp [h, MAX31855_ID]

/-- C6 witness: the all-zero frame passes the identity check. -/
theorem getChipID_identity_witness : getChipID 0 0 = MAX31855_ID :=
  (getChipID_identity 0 0 (by norm_num) (by decide)).1.mpr ⟨by decide, by decide⟩

/-- C2: for every 32-bit frame with bits 17, 3 and 16 zero (and not the
fetch sentinel), `getTemperature` is the two's-complement signed 14-bit
integer in bits 31..18 times 0.25; consequently encoding any in-range
signed count into bits 31..18 of an otherwise-zero frame and decoding
returns exactly that count times 0.25. -/
theorem getTemperature_signed_decode :
    (∀ fresh raw : ℕ, raw < 2 ^ 32 → raw ≠ MAX31855_FORCE_READ_DATA →
      raw.testBit 17 = false → raw.testBit 3 = false → raw.testBit 16 = false →
      getTemperature fresh raw
        = ((signed14 (raw >>> 18) : ℤ) : ℚ) * MAX31855_THERMOCOUPLE_RESOLUTION) ∧
    (∀ (fresh : ℕ) (c : ℤ), -(2 ^ 13) ≤ c → c < 2 ^ 13 →
      getTemperature fresh (encodeThermocouple c)
        = (c : ℚ) * MAX31855_THERMOCOUPLE_RESOLUTION) := by
  have hmain : ∀ fresh raw : ℕ, raw < 2 ^ 32 → raw ≠ MAX31855_FORCE_READ_DATA →
      raw.testBit 17 = false → raw.testBit 3 = false → raw.testBit 16 = false →
      getTemperature fresh raw
        = ((signed14 (raw >>> 18) : ℤ) : ℚ) * MAX31855_THERMOCOUPLE_RESOLUTION := by
    intro fresh raw h32 h7 h17 h3 h16
    rw [getTemperature_cached fresh raw h7]
    exact decodeThermocouple_valid raw h32 h17 h3 h16
  refine ⟨hmain, ?_⟩
  intro fresh c hc1 hc2
  rw [hmain fresh (encodeThermocouple c) (encodeThermocouple_lt c)
    (encodeThermocouple_ne_force c)
    (encodeThermocouple_testBit_lt18 c 17 (by norm_num))
    (encodeThermocouple_testBit_lt18 c 3 (by norm_num))
    (encodeThermocouple_testBit_lt18 c 16 (by norm_num))]
  rw [encodeThermocouple_shiftRight, signed14_encode c hc1 hc2]

/-- C2 witness: frame 104857600 = 400 <<< 18 decodes via the signed form
(100.00 °C), and encoding the count -160 (-40.00 °C) round-trips. -/
theorem getTemperature_signed_decode_witness :
    getTemperature 0 104857600
      = ((signed14 (104857600 >>> 18) : ℤ) : ℚ) * MAX31855_THERMOCOUPLE_RESOLUTION ∧
    getTemperature 0 (encodeThermocouple (-160))
      = ((-160 : ℤ) : ℚ) * MAX31855_THERMOCOUPLE_RESOLUTION :=
  ⟨getTemperature_signed_decode.1 0 104857600 (by norm_num) (by decide) (by decide)
      (by decide) (by decide),
    getTemperature_signed_decode.2 0 (-160) (by norm_num) (by norm_num)⟩

/-- C4: for every 32-bit frame other than the fetch sentinel,
`getTemperature` returns the sentinel 2000 whenever the fault
classification is not OK or the identity check fails; in particular bit 17
or bit 3 set forces both `getTemperature` and `getColdJunctionTemperature`
to 2000 regardless of every other bit. -/
theorem getTemperature_error_sentinel (fresh raw : ℕ) (_h32 : raw < 2 ^ 32)
    (h7 : raw ≠ MAX31855_FORCE_READ_DATA) :
    ((detectThermocouple fresh raw ≠ MAX31855_THERMOCOUPLE_OK ∨
      getChipID fresh raw ≠ MAX31855_ID) →
      getTemperature fresh raw = MAX31855_ERROR) ∧
    ((raw.testBit 17 = true ∨ raw.testBit 3 = true) →
      getTemperature fresh raw = MAX31855_ERROR ∧
      getColdJunctionTemperature fresh raw = MAX31855_ERROR) := by
  constructor
  · intro h
    rw [detectThermocouple_cached fresh raw h7, getChipID_cached fresh raw h7] at h
    rw [getTemperature_cached fresh raw h7]
    exact decodeThermocouple_error raw h
  · intro h
    have hid : decodeDeviceIdentity raw ≠ MAX31855_ID := by
      rw [decodeDeviceIdentity_eq]
      rcases h with h | h <;> simp [h, MAX31855_ID]
    constructor
    · rw [getTemperature_cached fresh raw h7]
      exact decodeThermocouple_error raw (Or.inr hid)
    · rw [getColdJunctionTemperature_cached fresh raw h7]
      exact decodeColdJunction_error raw hid

/-- C4 witness: frame 131072 = 2^17 (identity bit 17 set) drives both
temperature decodes to the sentinel. -/
theorem getTemperature_error_sentinel_witness :
    getTemperature 0 131072 = MAX31855_ERROR ∧
    getColdJunctionTemperature 0 131072 = MAX31855_ERROR :=
  (getTemperature_error_sentinel 0 131072 (by norm_num) (by decide)).2
    (Or.inl (by decide))

/-- C5: for every 32-bit frame other than the fetch sentinel,
`getColdJunctionTemperature` returns the sentinel 2000 iff the identity
check fails (bit 17 or bit 3 set); fault bits are irrelevant: with bit 16
and bit 2 set but identity bits clear, `getTemperature` returns 2000 while
`getColdJunctionTemperature` returns the normally decoded value. -/
theorem getColdJunction_error_iff (fresh raw : ℕ) (h32 : raw < 2 ^ 32)
    (h7 : raw ≠ MAX31855_FORCE_READ_DATA) :
    (getColdJunctionTemperature fresh raw = MAX31855_ERROR ↔
      (raw.testBit 17 = true ∨ raw.testBit 3 = true)) ∧
    (raw.testBit 16 = true → raw.testBit 2 = true →
      raw.testBit 17 = false → raw.testBit 3 = false →
      getTemperature fresh raw = MAX31855_ERROR ∧
      getColdJunctionTemperature fresh raw
        = (((raw % 2 ^ 16) >>> 4 : ℕ) : ℚ) * MAX31855_COLD_JUNCTION_RESOLUTION) := by
  constructor
  · constructor
    · intro hv
      by_cases h17 : raw.testBit 17 = true
      · exact Or.inl h17
      · have h17x : raw.testBit 17 = false := by simpa using h17
        by_cases h3 : raw.testBit 3 = true
        · exact Or.inr h3
        · have h3x : raw.testBit 3 = false := by simpa using h3
          exfalso
          rw [getColdJunctionTemperature_cached fresh raw h7,
            decodeColdJunction_valid raw h32 h17x h3x] at hv
          exact cjVal_ne_error _ (cjField_lt raw) hv
    · intro h
      have hid : decodeDeviceIdentity raw ≠ MAX31855_ID := by
        rw [decodeDeviceIdentity_eq]
        rcases h with h | h <;> simp [h, MAX31855_ID]
      rw [getColdJunctionTemperature_cached fresh raw h7]
      exact decodeColdJunction_error raw hid
  · intro h16 h2 h17 h3
    constructor
    · rw [getTemperature_cached fresh raw h7]
      apply decodeThermocouple_error
      left
      simp [classifyFault, bitRead_eq, h16, h2, MAX31855_THERMOCOUPLE_SHORT_TO_VCC,
        MAX31855_THERMOCOUPLE_OK]
    · rw [getColdJunctionTemperature_cached fresh raw h7]
      exact decodeColdJunction_valid raw h32 h17 h3

/-- C5 witness: frame 65540 (bit 16 and bit 2 set, identity bits clear):
`getTemperature` fails with 2000, `getColdJunctionTemperature` decodes. -/
theorem getColdJunction_error_iff_witness :
    getTemperature 0 65540 = MAX31855_ERROR ∧
    getColdJunctionTemperature 0 65540
      = ((((65540 : ℕ) % 2 ^ 16) >>> 4 : ℕ) : ℚ) * MAX31855_COLD_JUNCTION_RESOLUTION :=
  (getColdJunction_error_iff 0 65540 (by norm_num) (by decide)).2
    (by decide) (by decide) (by decide) (by decide)

/-- C7 counterexample: frame 2097152000 = 8000 <<< 18 passes the identity
check and classifies fault-OK, yet `getTemperature` returns exactly 2000,
the error sentinel: the decoder imposes no physical-range clamp, so the
legal 14-bit count 8000 decodes to 2000.00 °C and collides with the
sentinel, refuting the claim that valid decodes never equal 2000. -/
theorem getTemperature_sentinel_collision :
    detectThermocouple 0 2097152000 = MAX31855_THERMOCOUPLE_OK ∧
    getChipID 0 2097152000 = MAX31855_ID ∧
    getTemperature 0 2097152000 = MAX31855_ERROR := by
  refine ⟨by decide, by decide, ?_⟩
  rw [getTemperature_cached 0 2097152000 (by decide)]
  rw [decodeThermocouple_valid 2097152000 (by norm_num) (by decide) (by decide) (by decide)]
  have h : (2097152000 : ℕ) >>> 18 = 8000 := by decide
  rw [h]
  have hs : signed14 8000 = 8000 := by decide
  rw [hs]
  unfold MAX31855_THERMOCOUPLE_RESOLUTION MAX31855_ERROR
  norm_num

/-- C7 amended: on an identity-valid frame (not the fetch sentinel),
`getColdJunctionTemperature` never returns the sentinel 2000; and
`getTemperature` on a fault-OK frame never returns 2000 provided the
decoded signed count stays within the ±1372 °C physical range
(|count| ≤ 5488 = 1372 / 0.25).  (Without the range restriction the
sentinel is reachable: see the counterexample.) -/
theorem sentinel_outside_physical_range (fresh raw : ℕ) (h32 : raw < 2 ^ 32)
    (h7 : raw ≠ MAX31855_FORCE_READ_DATA)
    (h17 : raw.testBit 17 = false) (h3 : raw.testBit 3 = false) :
    getColdJunctionTemperature fresh raw ≠ MAX31855_ERROR ∧
    (raw.testBit 16 = false →
      -5488 ≤ signed14 (raw >>> 18) → signed14 (raw >>> 18) ≤ 5488 →
      getTemperature fresh raw ≠ MAX31855_ERROR) := by
  constructor
  · rw [getColdJunctionTemperature_cached fresh raw h7,
      decodeColdJunction_valid raw h32 h17 h3]
    exact cjVal_ne_error _ (cjField_lt raw)
  · intro h16 hlo hhi
    rw [getTemperature_cached fresh raw h7,
      decodeThermocouple_valid raw h32 h17 h3 h16]
    exact tempVal_ne_error _ hlo hhi

/-- C7 amended witness: the in-range frame 104857600 (100.00 °C) yields
neither sentinel. -/
theorem sentinel_outside_physical_range_witness :
    getColdJunctionTemperature 0 104857600 ≠ MAX31855_ERROR ∧
    getTemperature 0 104857600 ≠ MAX31855_ERROR :=
  ⟨(sentinel_outside_physical_range 0 104857600 (by norm_num) (by decide)
      (by decide) (by decide)).1,
    (sentinel_outside_physical_range 0 104857600 (by norm_num) (by decide)
      (by decide) (by decide)).2 (by decide) (by decide) (by decide)⟩

/-- C10: for every 32-bit frame other than the fetch sentinel,
`getColdJunctionTemperature` is never negative: it returns the sentinel
2000 on identity failure and otherwise a value in [0, 4095/16]
(= [0, 255.9375], an unsigned 12-bit count times 0.0625), for every
setting of the cold-junction sign bit 15. -/
theorem getColdJunction_nonneg (fresh raw : ℕ) (h32 : raw < 2 ^ 32)
    (h7 : raw ≠ MAX31855_FORCE_READ_DATA) :
    0 ≤ getColdJunctionTemperature fresh raw ∧
    ((raw.testBit 17 = true ∨ raw.testBit 3 = true) →
      getColdJunctionTemperature fresh raw = MAX31855_ERROR) ∧
    (raw.testBit 17 = false → raw.testBit 3 = false →
      getColdJunctionTemperature fresh raw ≤ 4095 / 16) := by
  have herr : (raw.testBit 17 = true ∨ raw.testBit 3 = true) →
      getColdJunctionTemperature fresh raw = MAX31855_ERROR := by
    intro h
    have hid : decodeDeviceIdentity raw ≠ MAX31855_ID := by
      rw [decodeDeviceIdentity_eq]
      rcases h with h | h <;> simp [h, MAX31855_ID]
    rw [getColdJunctionTemperature_cached fresh raw h7]
    exact decodeColdJunction_error raw hid
  refine ⟨?_, herr, ?_⟩
  · by_cases h17 : raw.testBit 17 = true
    · rw [herr (Or.inl h17)]
      unfold MAX31855_ERROR
      norm_num
    · by_cases h3 : raw.testBit 3 = true
      · rw [herr (Or.inr h3)]
        unfold MAX31855_ERROR
        norm_num
      · have h17x : raw.testBit 17 = false := by simpa using h17
        have h3x : raw.testBit 3 = false := by simpa using h3
        rw [getColdJunctionTemperature_cached fresh raw h7,
          decodeColdJunction_valid raw h32 h17x h3x]
        exact cjVal_nonneg _
  · intro h17 h3
    rw [getColdJunctionTemperature_cached fresh raw h7,
      decodeColdJunction_valid raw h32 h17 h3]
    exact cjVal_le _ (cjField_lt raw)

/-- C10 witness: frame 32768 has the cold-junction sign bit 15 set, yet
the decoded value (+128) is non-negative and within the bound. -/
theorem getColdJunction_nonneg_witness :
    0 ≤ getColdJunctionTemperature 0 32768 ∧
    getColdJunctionTemperature 0 32768 ≤ 4095 / 16 :=
  ⟨(getColdJunction_nonneg 0 32768 (by norm_num) (by decide)).1,
    (getColdJunction_nonneg 0 32768 (by norm_num) (by decide)).2.2
      (by decide) (by decide)⟩

/-- C9: each decode/classify operation, passed the fetch sentinel 7,
decodes the frame delivered by `readRawData` (so a cached frame whose
value is exactly 7 is never decoded as supplied); passed any other value
it performs no transport interaction — its result is independent of the
transport and a pure function of the cached argument. -/
theorem sentinel_dispatch (fresh : ℕ) :
    (detectThermocouple fresh MAX31855_FORCE_READ_DATA = classifyFault fresh ∧
     getChipID fresh MAX31855_FORCE_READ_DATA = decodeDeviceIdentity fresh ∧
     getTemperature fresh MAX31855_FORCE_READ_DATA = decodeThermocoupleTemperature fresh ∧
     getColdJunctionTemperature fresh MAX31855_FORCE_READ_DATA
       = decodeColdJunctionTemperature fresh) ∧
    (∀ raw, raw ≠ MAX31855_FORCE_READ_DATA →
      (∀ fresh2,
        detectThermocouple fresh raw = detectThermocouple fresh2 raw ∧
        getChipID fresh raw = getChipID fresh2 raw ∧
        getTemperature fresh raw = getTemperature fresh2 raw ∧
        getColdJunctionTemperature fresh raw = getColdJunctionTemperature fresh2 raw) ∧
      detectThermocouple fresh raw = classifyFault raw ∧
      getChipID fresh raw = decodeDeviceIdentity raw ∧
      getTemperature fresh raw = decodeThermocoupleTemperature raw ∧
      getColdJunctionTemperature fresh raw = decodeColdJunctionTemperature raw) := by
  refine ⟨⟨detectThermocouple_force fresh, getChipID_force fresh,
    getTemperature_force fresh, getColdJunctionTemperature_force fresh⟩, ?_⟩
  intro raw h7
  refine ⟨?_, detectThermocouple_cached fresh raw h7, getChipID_cached fresh raw h7,
    getTemperature_cached fresh raw h7, getColdJunctionTemperature_cached fresh raw h7⟩
  intro fresh2
  exact ⟨by rw [detectThermocouple_cached fresh raw h7,
      detectThermocouple_cached fresh2 raw h7],
    by rw [getChipID_cached fresh raw h7, getChipID_cached fresh2 raw h7],
    by rw [getTemperature_cached fresh raw h7, getTemperature_cached fresh2 raw h7],
    by rw [getColdJunctionTemperature_cached fresh raw h7,
      getColdJunctionTemperature_cached fresh2 raw h7]⟩

/-- C9 witness: with transport frame 5, the sentinel argument decodes the
fresh frame, and the cached argument 42 decodes purely. -/
theorem sentinel_dispatch_witness :
    detectThermocouple 5 MAX31855_FORCE_READ_DATA = classifyFault 5 ∧
    getTemperature 5 42 = decodeThermocoupleTemperature 42 :=
  ⟨(sentinel_dispatch 5).1.1, ((sentinel_dispatch 5).2 42 (by decide)).2.2.2.1⟩

/-- C1: code-bug exhibit.  The claim (and the source's own header, which
documents the -40..+125 °C cold-junction range and calls bit 15 the sign
bit) expects bits 15..4 to be decoded as a two's-complement signed 12-bit
integer, so a set sign bit yields a negative temperature; but the code
masks the frame to 16 bits and shifts, keeping the sign bit as a plain
magnitude bit.  On frame 0x00008000 = 32768 (bit 15 set, identity valid)
`getColdJunctionTemperature` returns +128 where the claimed signed decode
(`specColdJunctionDecode`) yields -128. -/
theorem coldJunction_sign_dropped :
    getChipID 0 32768 = MAX31855_ID ∧
    getColdJunctionTemperature 0 32768 = 128 ∧
    specColdJunctionDecode 32768 = -128 := by
  refine ⟨by decide, ?_, ?_⟩
  · rw [getColdJunctionTemperature_cached 0 32768 (by decide),
      decodeColdJunction_valid 32768 (by norm_num) (by decide) (by decide)]
    have h : ((32768 : ℕ) % 2 ^ 16) >>> 4 = 2048 := by decide
    rw [h]
    unfold MAX31855_COLD_JUNCTION_RESOLUTION
    norm_num
  · unfold specColdJunctionDecode
    have h : ((32768 : ℕ) % 2 ^ 16) >>> 4 = 2048 := by decide
    rw [h]
    have hs : signed12 2048 = -2048 := by decide
    rw [hs]
    unfold MAX31855_COLD_JUNCTION_RESOLUTION
    norm_num
